import Mathlib

/-!
Verification of the GL tessellation example (src/main.cpp).

The program is embedded shallowly:
* real/float arithmetic of the generator is modelled over `ℚ` (the C code
  computes `2.0f * (0.5f + column) / kColumns - 1.0f` etc.);
* the C `rand()` stream is modelled as a function `ℕ → ℕ` giving the
  successive results of `rand()`, each in `[0, RAND_MAX]`;
* SDL and OpenGL calls are modelled as explicit state passing plus traces
  of the externally visible actions the claims talk about.
-/

namespace Tess

/-- RAND_MAX of the target platform (macOS / typical Unix): 2^31 - 1. -/
def RAND_MAX : ℕ := 2 ^ 31 - 1

/-- Per-quad vertex attributes, mirroring `struct QuadVertex`.
Positions and size are `GLfloat` (modelled as `ℚ`); color channels are
`GLubyte` (modelled as `ℕ`, the generated values all fit in a byte). -/
structure QuadVertex where
  x : ℚ
  y : ℚ
  size : ℚ
  r : ℕ
  g : ℕ
  b : ℕ
  a : ℕ
deriving Repr, DecidableEq

/-- The body of the generator's inner loop for the cell `rc = (row, column)`,
with `i` the index of the next unconsumed `rand()` draw.  Mirrors
src/main.cpp lines 219-229: position from the cell, then `rand()` consumed
four times, in source order size, r, g, b. -/
def cellVertex (R C : ℕ) (rand : ℕ → ℕ) (i : ℕ) (rc : ℕ × ℕ) : QuadVertex :=
  { x := 2 * (0.5 + (rc.2 : ℚ)) / (C : ℚ) - 1
    y := 2 * (0.5 + (rc.1 : ℚ)) / (R : ℚ) - 1
    size := 0.05 + ((rand i : ℚ) / (RAND_MAX : ℚ)) * 0.04
    r := 96 + rand (i + 1) % 128
    g := 96 + rand (i + 2) % 128
    b := 96 + rand (i + 3) % 128
    a := 255 }

/-- Runs the loop body over a list of cells, threading the index of the next
`rand()` draw (four draws are consumed per cell). -/
def genCells (R C : ℕ) (rand : ℕ → ℕ) : List (ℕ × ℕ) → ℕ → List QuadVertex
  | [], _ => []
  | rc :: rest, i => cellVertex R C rand i rc :: genCells R C rand rest (i + 4)

/-- The cell visit order of the two nested `for` loops of src/main.cpp
lines 217-218: row-major, row outer, column inner. -/
def cellOrder (R C : ℕ) : List (ℕ × ℕ) :=
  (List.range R).flatMap fun row => (List.range C).map fun col => (row, col)

/-- The grid generator (src/main.cpp lines 217-233): the `quadData` vector
built by `main` for an `R × C` grid from the random stream `rand`. -/
def genQuads (R C : ℕ) (rand : ℕ → ℕ) : List QuadVertex :=
  genCells R C rand (cellOrder R C) 0

/-- Grid rows, `kRows` in src/main.cpp. -/
def kRows : ℕ := 10

/-- Grid columns, `kColumns` in src/main.cpp. -/
def kColumns : ℕ := 10

/-- SDL events, as distinguished by `HandleEvents` (src/main.cpp 152-170):
quit, a window-resized event carrying the new width and height, any other
window event, and any other event. -/
inductive Event where
  | quit
  | windowResized (w h : ℤ)
  | windowOther
  | other
deriving Repr, DecidableEq

/-- The rendering state `HandleEvents` can affect: the viewport rectangle
set by glViewport, `none` while still unset since startup. -/
structure RenderState where
  viewport : Option (ℤ × ℤ × ℤ × ℤ)
deriving Repr, DecidableEq

/-- HandleEvents (src/main.cpp 152-170): drains the queued events of one poll
pass in order; a resize updates the viewport, a quit makes it return `false`
at once (the events after it are left unprocessed), anything else is skipped;
returns `true` when the queue empties without a quit. -/
def HandleEvents : List Event → RenderState → RenderState × Bool
  | [], st => (st, true)
  | Event.quit :: _, st => (st, false)
  | Event.windowResized w h :: rest, _ => HandleEvents rest ⟨some (0, 0, w, h)⟩
  | Event.windowOther :: rest, st => HandleEvents rest st
  | Event.other :: rest, st => HandleEvents rest st

/-- Polygon rasterization mode, for glPolygonMode. -/
inductive PolyMode where
  | fill
  | line
deriving Repr, DecidableEq

/-- The GL calls issued by the frame-loop body, abstracted to their
arguments.  `uniform3f` is the ConstantColor uniform update. -/
inductive GLCmd where
  | clearColor (r g b a : ℚ)
  | clearBuffers
  | patchVertices (n : ℕ)
  | uniform3f (r g b : ℚ)
  | drawArrays (first count : ℕ)
  | setPolygonMode (m : PolyMode)
  | swapWindow
deriving Repr, DecidableEq

/-- The body of one frame-loop iteration (src/main.cpp 286-302), in program
order: clear, patch size 1, black uniform + filled draw of all
`kRows * kColumns` patches, line mode + white uniform + second draw,
fill mode restored, buffer swap. -/
def frameCmds : List GLCmd :=
  [GLCmd.clearColor 0 0.1 0.1 1,
   GLCmd.clearBuffers,
   GLCmd.patchVertices 1,
   GLCmd.uniform3f 0 0 0,
   GLCmd.drawArrays 0 (kRows * kColumns),
   GLCmd.setPolygonMode PolyMode.line,
   GLCmd.uniform3f 1 1 1,
   GLCmd.drawArrays 0 (kRows * kColumns),
   GLCmd.setPolygonMode PolyMode.fill,
   GLCmd.swapWindow]

/-- The GL state a draw call depends on: current polygon mode and the
current value of the ConstantColor uniform. -/
structure GLRaster where
  poly : PolyMode
  uniformColor : ℚ × ℚ × ℚ
deriving Repr, DecidableEq

/-- One GL command: updates the raster state and emits, for each draw call
issued, the polygon mode and uniform color in effect plus the patch count. -/
def glStep (s : GLRaster) : GLCmd → GLRaster × List (PolyMode × (ℚ × ℚ × ℚ) × ℕ)
  | GLCmd.setPolygonMode m => ({ s with poly := m }, [])
  | GLCmd.uniform3f r g b => ({ s with uniformColor := (r, g, b) }, [])
  | GLCmd.drawArrays _ n => (s, [(s.poly, s.uniformColor, n)])
  | _ => (s, [])

/-- Runs a command list through `glStep`, collecting the submitted draws. -/
def glRun (s : GLRaster) : List GLCmd → GLRaster × List (PolyMode × (ℚ × ℚ × ℚ) × ℕ)
  | [] => (s, [])
  | c :: cs =>
    let sd := glStep s c
    let rest := glRun sd.1 cs
    (rest.1, sd.2 ++ rest.2)

/-- Outcome of running the frame loop on a finite list of poll passes:
frames fully rendered, the GL trace they produced, the final render state,
and whether a quit ended the loop (otherwise the modelled passes ran out
with the loop still live). -/
structure LoopOutcome where
  frames : ℕ
  trace : List GLCmd
  finalState : RenderState
  quitReceived : Bool
deriving Repr, DecidableEq

/-- The `while (true)` loop of src/main.cpp 281-303: each iteration polls one
pass of events; if `HandleEvents` returns false the loop breaks before
rendering, else one frame body runs and the loop continues. -/
def runLoop : List (List Event) → RenderState → LoopOutcome
  | [], st => ⟨0, [], st, false⟩
  | evs :: rest, st =>
    let hb := HandleEvents evs st
    if hb.2 then
      let o := runLoop rest hb.1
      ⟨o.frames + 1, frameCmds ++ o.trace, o.finalState, o.quitReceived⟩
    else
      ⟨0, [], hb.1, true⟩

/-- The SDL-level teardown actions CleanupSDL can perform. -/
inductive SDLAction where
  | deleteContext
  | destroyWindow
  | quitSubSystem
deriving Repr, DecidableEq

/-- Whether the global `window` and `context` handles are non-null. -/
structure SDLState where
  window : Bool
  context : Bool
deriving Repr, DecidableEq

/-- CleanupSDL (src/main.cpp 172-187): deletes the context when non-null and
nulls it, destroys the window when non-null and nulls it, shuts the
initialized subsystems down, and returns `status` unchanged. -/
def CleanupSDL (status : ℤ) (s : SDLState) : ℤ × SDLState × List SDLAction :=
  let p1 : SDLState × List SDLAction :=
    if s.context then (⟨s.window, false⟩, [SDLAction.deleteContext]) else (s, [])
  let p2 : SDLState × List SDLAction :=
    if p1.1.window then (⟨false, p1.1.context⟩, p1.2 ++ [SDLAction.destroyWindow])
    else (p1.1, p1.2)
  (status, p2.1, p2.2 ++ [SDLAction.quitSubSystem])

/-- The observable actions of one CreateShader call beyond its return value. -/
inductive ShaderAction where
  | getInfoLog
  | showErrorDialog
  | deleteShaderObj
deriving Repr, DecidableEq

/-- CreateShader (src/main.cpp 103-124): `h` is the handle glCreateShader
returned, `compileOk` the GL_COMPILE_STATUS result.  On failure the info log
is retrieved, a blocking error message box is shown, the failed shader object
is deleted, and 0 is returned; on success `h` is returned with no actions. -/
def CreateShader (h : ℕ) (compileOk : Bool) : ℕ × List ShaderAction :=
  if compileOk then (h, [])
  else (0, [ShaderAction.getInfoLog, ShaderAction.showErrorDialog,
            ShaderAction.deleteShaderObj])

set_option linter.unusedVariables false in
/-- CreateShaderProgram (src/main.cpp 126-150): attaches every handle of
`shaders` (zero handles included), links; on link failure shows a dialog,
deletes the program and returns 0, else returns the program handle `p`. -/
def CreateShaderProgram (p : ℕ) (linkOk : Bool) (shaders : List ℕ) : ℕ :=
  if linkOk then p else 0

/-- The three shader stages compiled by main (src/main.cpp 253-257). -/
inductive ShaderStage where
  | vertex
  | tessEvaluation
  | fragment
deriving Repr, DecidableEq

/-- Environment main runs against: success of each fallible external call,
the nonzero handles GL hands out, the random stream, and the event passes
the loop will poll. -/
structure Env where
  initOk : Bool
  windowOk : Bool
  contextOk : Bool
  vshaderOk : Bool
  teshaderOk : Bool
  fshaderOk : Bool
  linkOk : Bool
  vshaderId : ℕ
  teshaderId : ℕ
  fshaderId : ℕ
  programId : ℕ
  rand : ℕ → ℕ
  passes : List (List Event)

/-- Compile status of a given stage in the environment. -/
def Env.stageOk (env : Env) : ShaderStage → Bool
  | ShaderStage.vertex => env.vshaderOk
  | ShaderStage.tessEvaluation => env.teshaderOk
  | ShaderStage.fragment => env.fshaderOk

/-- GPU objects main can delete on its teardown path (src/main.cpp 305-312). -/
inductive GLObject where
  | shaderObj (id : ℕ)
  | programObj (id : ℕ)
  | bufferObj
  | vertexArrayObj
deriving Repr, DecidableEq

/-- What a run of main observably did. -/
structure MainOutcome where
  exitCode : Option ℤ
  enteredLoop : Bool
  frames : ℕ
  quadData : List QuadVertex
  shaderHandles : List ℕ
  linkCalled : Bool
  glDeletes : List GLObject
  sdlActions : List SDLAction

/-- main (src/main.cpp 189-315): the three bootstrap steps each exit with
`CleanupSDL 1` on failure, before the grid, GPU resources, shaders or loop;
otherwise the grid is generated, the three stages compiled (failures yield
handle 0 but do not stop the run), the program linked, and the loop entered.
On quit the GPU objects are deleted and `CleanupSDL 0` supplies exit code 0;
if the modelled passes run out the loop is still live (`exitCode = none`). -/
def mainRun (env : Env) : MainOutcome :=
  if !env.initOk then
    { exitCode := some (CleanupSDL 1 ⟨false, false⟩).1
      enteredLoop := false, frames := 0, quadData := [], shaderHandles := []
      linkCalled := false, glDeletes := []
      sdlActions := (CleanupSDL 1 ⟨false, false⟩).2.2 }
  else if !env.windowOk then
    { exitCode := some (CleanupSDL 1 ⟨false, false⟩).1
      enteredLoop := false, frames := 0, quadData := [], shaderHandles := []
      linkCalled := false, glDeletes := []
      sdlActions := (CleanupSDL 1 ⟨false, false⟩).2.2 }
  else if !env.contextOk then
    { exitCode := some (CleanupSDL 1 ⟨true, false⟩).1
      enteredLoop := false, frames := 0, quadData := [], shaderHandles := []
      linkCalled := false, glDeletes := []
      sdlActions := (CleanupSDL 1 ⟨true, false⟩).2.2 }
  else
    let qd := genQuads kRows kColumns env.rand
    let handles := [(CreateShader env.vshaderId env.vshaderOk).1,
                    (CreateShader env.teshaderId env.teshaderOk).1,
                    (CreateShader env.fshaderId env.fshaderOk).1]
    let program := CreateShaderProgram env.programId env.linkOk handles
    let o := runLoop env.passes ⟨none⟩
    if o.quitReceived then
      { exitCode := some (CleanupSDL 0 ⟨true, true⟩).1
        enteredLoop := true, frames := o.frames, quadData := qd
        shaderHandles := handles, linkCalled := true
        glDeletes := handles.map GLObject.shaderObj ++
          [GLObject.programObj program, GLObject.bufferObj, GLObject.vertexArrayObj]
        sdlActions := (CleanupSDL 0 ⟨true, true⟩).2.2 }
    else
      { exitCode := none
        enteredLoop := true, frames := o.frames, quadData := qd
        shaderHandles := handles, linkCalled := true
        glDeletes := [], sdlActions := [] }

/-- A concrete environment where bootstrap succeeds and the only poll pass
ends with a quit event; the base of the concrete environments used below. -/
def quitEnv : Env :=
  { initOk := true, windowOk := true, contextOk := true
    vshaderOk := true, teshaderOk := true, fshaderOk := true, linkOk := true
    vshaderId := 1, teshaderId := 2, fshaderId := 3, programId := 4
    rand := fun _ => 0
    passes := [[Event.windowResized 5 6, Event.quit]] }

/-! ## Helper lemmas -/

theorem genCells_length (R C : ℕ) (rand : ℕ → ℕ) (cells : List (ℕ × ℕ)) :
    ∀ i, (genCells R C rand cells i).length = cells.length := by
  induction cells with
  | nil => intro i; rfl
  | cons rc rest ih => intro i; simp [genCells, ih]

theorem genCells_getElem? (R C : ℕ) (rand : ℕ → ℕ) (cells : List (ℕ × ℕ)) :
    ∀ i k, (genCells R C rand cells i)[k]?
      = (cells[k]?).map fun rc => cellVertex R C rand (i + 4 * k) rc := by
  induction cells with
  | nil => intro i k; simp [genCells]
  | cons rc rest ih =>
    intro i k
    cases k with
    | zero => simp [genCells]
    | succ k =>
      simp only [genCells, List.getElem?_cons_succ]
      rw [ih (i + 4) k]
      have h4 : i + 4 + 4 * k = i + 4 * (k + 1) := by omega
      rw [h4]

theorem cellOrder_succ (R C : ℕ) :
    cellOrder (R + 1) C = cellOrder R C ++ (List.range C).map fun col => (R, col) := by
  simp [cellOrder, List.range_succ]

theorem cellOrder_length (R C : ℕ) : (cellOrder R C).length = R * C := by
  induction R with
  | zero => simp [cellOrder]
  | succ R ih =>
    rw [cellOrder_succ, List.length_append, ih, List.length_map, List.length_range]
    ring

theorem cellOrder_getElem? (R C r c : ℕ) (hr : r < R) (hc : c < C) :
    (cellOrder R C)[r * C + c]? = some (r, c) := by
  induction R with
  | zero => omega
  | succ R ih =>
    rw [cellOrder_succ]
    rcases Nat.lt_or_ge r R with h | h
    · have hlen : r * C + c < (cellOrder R C).length := by
        rw [cellOrder_length]
        calc r * C + c < r * C + C := by omega
          _ = (r + 1) * C := by ring
          _ ≤ R * C := Nat.mul_le_mul_right C h
      rw [List.getElem?_append, if_pos hlen]
      exact ih h
    · have hrR : r = R := by omega
      subst hrR
      have hlen : ¬ (r * C + c < (cellOrder r C).length) := by
        rw [cellOrder_length]; omega
      rw [List.getElem?_append, if_neg hlen, cellOrder_length]
      have hsub : r * C + c - r * C = c := by omega
      rw [hsub, List.getElem?_map, List.getElem?_range hc]
      rfl

theorem mem_cellOrder {R C : ℕ} {rc : ℕ × ℕ} (h : rc ∈ cellOrder R C) :
    rc.1 < R ∧ rc.2 < C := by
  simp only [cellOrder, List.mem_flatMap, List.mem_map, List.mem_range] at h
  obtain ⟨row, hrow, col, hcol, rfl⟩ := h
  exact ⟨hrow, hcol⟩

theorem mem_genCells {R C : ℕ} {rand : ℕ → ℕ} {v : QuadVertex} :
    ∀ {cells : List (ℕ × ℕ)} {i : ℕ}, v ∈ genCells R C rand cells i →
      ∃ rc ∈ cells, ∃ j, v = cellVertex R C rand j rc := by
  intro cells
  induction cells with
  | nil => intro i h; simp [genCells] at h
  | cons rc rest ih =>
    intro i h
    simp only [genCells, List.mem_cons] at h
    rcases h with h1 | h1
    · exact ⟨rc, List.mem_cons_self rc rest, i, h1⟩
    · obtain ⟨rc2, hmem, j, hj⟩ := ih h1
      exact ⟨rc2, List.mem_cons_of_mem rc hmem, j, hj⟩

theorem genCells_congr (R C : ℕ) (rand1 rand2 : ℕ → ℕ) :
    ∀ (cells : List (ℕ × ℕ)) (i : ℕ),
      (∀ j, i ≤ j → j < i + 4 * cells.length → rand1 j = rand2 j) →
      genCells R C rand1 cells i = genCells R C rand2 cells i := by
  intro cells
  induction cells with
  | nil => intro i h; rfl
  | cons rc rest ih =>
    intro i h
    simp only [genCells]
    have hv : cellVertex R C rand1 i rc = cellVertex R C rand2 i rc := by
      have e0 := h i (le_refl i) (by simp only [List.length_cons]; omega)
      have e1 := h (i + 1) (by omega) (by simp only [List.length_cons]; omega)
      have e2 := h (i + 2) (by omega) (by simp only [List.length_cons]; omega)
      have e3 := h (i + 3) (by omega) (by simp only [List.length_cons]; omega)
      simp [cellVertex, e0, e1, e2, e3]
    rw [hv, ih (i + 4) fun j hj1 hj2 => h j (by omega)
      (by simp only [List.length_cons]; omega)]

theorem color_channel_bounds (n : ℕ) : 96 ≤ 96 + n % 128 ∧ 96 + n % 128 ≤ 223 := by
  have := Nat.mod_lt n (show 0 < 128 by norm_num)
  omega

theorem cellVertex_x_bounds (R C : ℕ) (rand : ℕ → ℕ) (i : ℕ) (rc : ℕ × ℕ)
    (hc : rc.2 < C) :
    -1 < (cellVertex R C rand i rc).x ∧ (cellVertex R C rand i rc).x < 1 := by
  have hC : (0 : ℚ) < C := by exact_mod_cast Nat.pos_of_ne_zero (by omega)
  have hcQ : (rc.2 : ℚ) + 1 ≤ (C : ℚ) := by exact_mod_cast hc
  simp only [cellVertex]
  constructor
  · have h1 : 0 < 2 * ((0.5 : ℚ) + rc.2) / C := by positivity
    linarith
  · rw [sub_lt_iff_lt_add, div_lt_iff₀ hC]
    norm_num
    linarith

theorem cellVertex_y_bounds (R C : ℕ) (rand : ℕ → ℕ) (i : ℕ) (rc : ℕ × ℕ)
    (hr : rc.1 < R) :
    -1 < (cellVertex R C rand i rc).y ∧ (cellVertex R C rand i rc).y < 1 := by
  have hR : (0 : ℚ) < R := by exact_mod_cast Nat.pos_of_ne_zero (by omega)
  have hrQ : (rc.1 : ℚ) + 1 ≤ (R : ℚ) := by exact_mod_cast hr
  simp only [cellVertex]
  constructor
  · have h1 : 0 < 2 * ((0.5 : ℚ) + rc.1) / R := by positivity
    linarith
  · rw [sub_lt_iff_lt_add, div_lt_iff₀ hR]
    norm_num
    linarith

theorem cellVertex_size_bounds (R C : ℕ) (rand : ℕ → ℕ) (i : ℕ) (rc : ℕ × ℕ)
    (h : rand i ≤ RAND_MAX) :
    0.05 ≤ (cellVertex R C rand i rc).size ∧ (cellVertex R C rand i rc).size ≤ 0.09 := by
  have hRM : (0 : ℚ) < (RAND_MAX : ℚ) := by norm_num [RAND_MAX]
  have h0 : (0 : ℚ) ≤ (rand i : ℚ) := Nat.cast_nonneg _
  have h1 : (rand i : ℚ) ≤ (RAND_MAX : ℚ) := by exact_mod_cast h
  have hdiv0 : (0 : ℚ) ≤ (rand i : ℚ) / RAND_MAX := by positivity
  have hdiv1 : (rand i : ℚ) / RAND_MAX ≤ 1 := by
    rw [div_le_one hRM]; exact h1
  simp only [cellVertex]
  constructor
  · nlinarith
  · nlinarith

theorem HandleEvents_stop_iff (evs : List Event) :
    ∀ st, ((HandleEvents evs st).2 = false ↔ Event.quit ∈ evs) := by
  induction evs with
  | nil => intro st; simp [HandleEvents]
  | cons e rest ih =>
    intro st
    cases e <;> simp [HandleEvents, ih]

theorem HandleEvents_append_quit (before after : List Event) :
    ∀ st, HandleEvents (before ++ Event.quit :: after) st
      = HandleEvents (before ++ [Event.quit]) st := by
  induction before with
  | nil => intro st; simp [HandleEvents]
  | cons e rest ih => intro st; cases e <;> simp [HandleEvents, ih]

theorem runLoop_trace (passes : List (List Event)) :
    ∀ st, (runLoop passes st).trace
      = (List.replicate (runLoop passes st).frames frameCmds).flatten := by
  induction passes with
  | nil => intro st; simp [runLoop]
  | cons evs rest ih =>
    intro st
    cases hEq : (HandleEvents evs st).2 with
    | false => simp [runLoop, hEq]
    | true => simp [runLoop, hEq, ih, List.replicate_succ]

theorem runLoop_quit (passes : List (List Event)) :
    ∀ st, (∃ p ∈ passes, Event.quit ∈ p) → (runLoop passes st).quitReceived = true := by
  induction passes with
  | nil => intro st h; simp at h
  | cons evs rest ih =>
    intro st h
    cases hEq : (HandleEvents evs st).2 with
    | false => simp [runLoop, hEq]
    | true =>
      have hq : Event.quit ∉ evs := by
        intro hmem
        have hfalse := (HandleEvents_stop_iff evs st).mpr hmem
        rw [hEq] at hfalse
        exact Bool.noConfusion hfalse
      obtain ⟨p, hp, hquit⟩ := h
      rcases List.mem_cons.mp hp with rfl | hp2
      · exact absurd hquit hq
      · simp only [runLoop, hEq, if_true]
        exact ih _ ⟨p, hp2, hquit⟩

/-! ## Claims -/

/-- C1: for every grid of R rows and C columns the generator produces exactly
R*C records in row-major order, and the record at row r, column c has
position x = 2*(0.5+c)/C - 1 and y = 2*(0.5+r)/R - 1 exactly, whatever the
random stream (so the position is independent of the randomized size and
color values). -/
theorem C1_grid_layout (R C : ℕ) (rand : ℕ → ℕ) :
    (genQuads R C rand).length = R * C ∧
    ∀ r c, r < R → c < C →
      ((genQuads R C rand)[r * C + c]?).map QuadVertex.x
          = some (2 * (0.5 + (c : ℚ)) / (C : ℚ) - 1) ∧
      ((genQuads R C rand)[r * C + c]?).map QuadVertex.y
          = some (2 * (0.5 + (r : ℚ)) / (R : ℚ) - 1) := by
  constructor
  · rw [genQuads, genCells_length, cellOrder_length]
  · intro r c hr hc
    rw [genQuads, genCells_getElem?, cellOrder_getElem? R C r c hr hc]
    simp [cellVertex]

/-- Witness for C1 at R = 2, C = 3, r = 1, c = 2, the zero stream. -/
theorem C1_grid_layout_witness :
    (genQuads 2 3 (fun _ => 0)).length = 2 * 3 ∧
    ((genQuads 2 3 (fun _ => 0))[1 * 3 + 2]?).map QuadVertex.x
        = some (2 * (0.5 + ((2 : ℕ) : ℚ)) / ((3 : ℕ) : ℚ) - 1) ∧
    ((genQuads 2 3 (fun _ => 0))[1 * 3 + 2]?).map QuadVertex.y
        = some (2 * (0.5 + ((1 : ℕ) : ℚ)) / ((2 : ℕ) : ℚ) - 1) :=
  ⟨(C1_grid_layout 2 3 (fun _ => 0)).1,
   (C1_grid_layout 2 3 (fun _ => 0)).2 1 2 (by norm_num) (by norm_num)⟩

/-- C2 counterexample: in the pass [quit, resized 3 4] the quit stops event
processing immediately, so the resize queued after it never reaches the
viewport — the claim that the remaining queued events are drained before the
quit takes effect is false on this input. -/
theorem C2_quit_counterexample :
    (HandleEvents [Event.quit, Event.windowResized 3 4] ⟨none⟩).2 = false ∧
    ¬ ((HandleEvents [Event.quit, Event.windowResized 3 4] ⟨none⟩).1.viewport
        = some (0, 0, 3, 4)) := by
  decide

/-- C2 (amended): a quit event anywhere in a poll pass still terminates the
loop, and main then exits with code 0; but the quit takes effect immediately
when reached: the events queued after it in the same pass are discarded, the
pass behaves exactly as if it ended at the quit. -/
theorem C2_quit_terminates (env : Env)
    (h1 : env.initOk = true) (h2 : env.windowOk = true) (h3 : env.contextOk = true)
    (hq : ∃ p ∈ env.passes, Event.quit ∈ p) :
    (mainRun env).exitCode = some 0 ∧
    ∀ (before after : List Event) (st : RenderState),
      HandleEvents (before ++ Event.quit :: after) st
        = HandleEvents (before ++ [Event.quit]) st := by
  constructor
  · have hqr := runLoop_quit env.passes ⟨none⟩ hq
    simp [mainRun, h1, h2, h3, hqr, CleanupSDL]
  · intro before after st
    exact HandleEvents_append_quit before after st

/-- Witness for C2 (amended) at the concrete environment `quitEnv`. -/
theorem C2_quit_terminates_witness :
    (mainRun quitEnv).exitCode = some 0 ∧
    HandleEvents ([] ++ Event.quit :: [Event.windowResized 3 4]) ⟨none⟩
      = HandleEvents ([] ++ [Event.quit]) ⟨none⟩ := by
  have h := C2_quit_terminates quitEnv rfl rfl rfl
    ⟨[Event.windowResized 5 6, Event.quit], by simp [quitEnv], by simp⟩
  exact ⟨h.1, h.2 [] [Event.windowResized 3 4] ⟨none⟩⟩

/-- C3 counterexample: with the random stream constantly RAND_MAX the single
generated record of a 1x1 grid has size exactly 0.09, so the claimed strict
bound size < 0.09 fails. -/
theorem C3_size_counterexample :
    ¬ (∀ v ∈ genQuads 1 1 (fun _ => RAND_MAX), v.size < 0.09) := by
  intro h
  have hv := h (cellVertex 1 1 (fun _ => RAND_MAX) 0 (0, 0)) (List.Mem.head _)
  norm_num [cellVertex, RAND_MAX] at hv

/-- C3 (amended): every generated size lies in the closed interval
[0.05, 0.09], for every random stream whose draws are bounded by RAND_MAX;
the upper endpoint is attained exactly when a draw equals RAND_MAX, so the
half-open interval of the claim is off only at that endpoint. -/
theorem C3_size_range (R C : ℕ) (rand : ℕ → ℕ)
    (hrand : ∀ i, rand i ≤ RAND_MAX) :
    ∀ v ∈ genQuads R C rand, 0.05 ≤ v.size ∧ v.size ≤ 0.09 := by
  intro v hv
  rw [genQuads] at hv
  obtain ⟨rc, hmem, j, rfl⟩ := mem_genCells hv
  exact cellVertex_size_bounds R C rand j rc (hrand j)

/-- Witness for C3 (amended) on a 1x1 grid with the zero stream. -/
theorem C3_size_range_witness :
    0.05 ≤ (cellVertex 1 1 (fun _ => 0) 0 (0, 0)).size ∧
      (cellVertex 1 1 (fun _ => 0) 0 (0, 0)).size ≤ 0.09 :=
  C3_size_range 1 1 (fun _ => 0) (fun _ => Nat.zero_le _)
    (cellVertex 1 1 (fun _ => 0) 0 (0, 0)) (List.Mem.head _)

/-- C4: every generated record, for every random stream, has its three color
channels in [96, 223], opacity equal to 255, and both position components
strictly inside (-1, 1). -/
theorem C4_color_position (R C : ℕ) (rand : ℕ → ℕ) :
    ∀ v ∈ genQuads R C rand,
      (96 ≤ v.r ∧ v.r ≤ 223) ∧ (96 ≤ v.g ∧ v.g ≤ 223) ∧ (96 ≤ v.b ∧ v.b ≤ 223) ∧
      v.a = 255 ∧ (-1 < v.x ∧ v.x < 1) ∧ (-1 < v.y ∧ v.y < 1) := by
  intro v hv
  rw [genQuads] at hv
  obtain ⟨rc, hmem, j, rfl⟩ := mem_genCells hv
  obtain ⟨hr, hc⟩ := mem_cellOrder hmem
  exact ⟨color_channel_bounds _, color_channel_bounds _, color_channel_bounds _,
    rfl, cellVertex_x_bounds R C rand j rc hc, cellVertex_y_bounds R C rand j rc hr⟩

/-- Witness for C4 on a 1x1 grid with the zero stream. -/
theorem C4_color_position_witness :
    (96 ≤ (cellVertex 1 1 (fun _ => 0) 0 (0, 0)).r ∧
      (cellVertex 1 1 (fun _ => 0) 0 (0, 0)).r ≤ 223) ∧
    (96 ≤ (cellVertex 1 1 (fun _ => 0) 0 (0, 0)).g ∧
      (cellVertex 1 1 (fun _ => 0) 0 (0, 0)).g ≤ 223) ∧
    (96 ≤ (cellVertex 1 1 (fun _ => 0) 0 (0, 0)).b ∧
      (cellVertex 1 1 (fun _ => 0) 0 (0, 0)).b ≤ 223) ∧
    (cellVertex 1 1 (fun _ => 0) 0 (0, 0)).a = 255 ∧
    (-1 < (cellVertex 1 1 (fun _ => 0) 0 (0, 0)).x ∧
      (cellVertex 1 1 (fun _ => 0) 0 (0, 0)).x < 1) ∧
    (-1 < (cellVertex 1 1 (fun _ => 0) 0 (0, 0)).y ∧
      (cellVertex 1 1 (fun _ => 0) 0 (0, 0)).y < 1) :=
  C4_color_position 1 1 (fun _ => 0)
    (cellVertex 1 1 (fun _ => 0) 0 (0, 0)) (List.Mem.head _)

/-- C5: the GL trace of a whole run of the frame loop is one `frameCmds`
block per completed iteration; that block submits exactly two draw calls of
`kRows * kColumns = 100` patches each — the first with polygon mode fill and
the ConstantColor uniform set to black, the second with polygon mode line
and the uniform set to white — and leaves fill mode restored (the raster
state ends at fill) before the buffer swap that ends the block. -/
theorem C5_two_draws_per_frame :
    (∀ (passes : List (List Event)) (st : RenderState),
        (runLoop passes st).trace
          = (List.replicate (runLoop passes st).frames frameCmds).flatten) ∧
    (∀ u, glRun ⟨PolyMode.fill, u⟩ frameCmds
        = (⟨PolyMode.fill, (1, 1, 1)⟩,
           [(PolyMode.fill, (0, 0, 0), kRows * kColumns),
            (PolyMode.line, (1, 1, 1), kRows * kColumns)])) ∧
    kRows * kColumns = 100 :=
  ⟨runLoop_trace, fun _ => rfl, rfl⟩

/-- C6: if any bootstrap step fails, main exits with code 1 without entering
the frame loop (no frame is rendered); no GPU object (shader, program,
buffer, vertex array) is deleted, the context — never created on these
paths — is never deleted, and the window is destroyed exactly when the
failing step was context creation, the only failure that follows a
successful window creation. -/
theorem C6_bootstrap_failure (env : Env)
    (h : env.initOk = false ∨ env.windowOk = false ∨ env.contextOk = false) :
    (mainRun env).exitCode = some 1 ∧
    (mainRun env).enteredLoop = false ∧
    (mainRun env).frames = 0 ∧
    (mainRun env).glDeletes = [] ∧
    SDLAction.deleteContext ∉ (mainRun env).sdlActions ∧
    (SDLAction.destroyWindow ∈ (mainRun env).sdlActions ↔
      (env.initOk = true ∧ env.windowOk = true ∧ env.contextOk = false)) := by
  cases hI : env.initOk with
  | false => simp [mainRun, hI, CleanupSDL]
  | true =>
    cases hW : env.windowOk with
    | false => simp [mainRun, hI, hW, CleanupSDL]
    | true =>
      cases hC : env.contextOk with
      | false => simp [mainRun, hI, hW, hC, CleanupSDL]
      | true => rw [hI, hW, hC] at h; simp at h

/-- Witness for C6 with a failing subsystem init. -/
theorem C6_bootstrap_failure_witness :
    (mainRun { quitEnv with initOk := false }).exitCode = some 1 ∧
    (mainRun { quitEnv with initOk := false }).enteredLoop = false ∧
    (mainRun { quitEnv with initOk := false }).glDeletes = [] :=
  ⟨(C6_bootstrap_failure { quitEnv with initOk := false } (Or.inl rfl)).1,
   (C6_bootstrap_failure { quitEnv with initOk := false } (Or.inl rfl)).2.1,
   (C6_bootstrap_failure { quitEnv with initOk := false } (Or.inl rfl)).2.2.2.1⟩

/-- C7: a shader stage whose compilation fails makes CreateShader fetch the
info log, show a blocking error dialog, delete the failed shader object and
return handle 0; the run does not abort: the program link is still invoked
(with the zero handle among the attached shaders) and the frame loop is
still entered. -/
theorem C7_shader_failure (env : Env) (stage : ShaderStage)
    (h1 : env.initOk = true) (h2 : env.windowOk = true) (h3 : env.contextOk = true)
    (hfail : env.stageOk stage = false) :
    (∀ h : ℕ, CreateShader h false
        = (0, [ShaderAction.getInfoLog, ShaderAction.showErrorDialog,
               ShaderAction.deleteShaderObj])) ∧
    0 ∈ (mainRun env).shaderHandles ∧
    (mainRun env).linkCalled = true ∧
    (mainRun env).enteredLoop = true := by
  have hmem : 0 ∈ [(CreateShader env.vshaderId env.vshaderOk).1,
                   (CreateShader env.teshaderId env.teshaderOk).1,
                   (CreateShader env.fshaderId env.fshaderOk).1] := by
    cases stage with
    | vertex =>
      simp only [Env.stageOk] at hfail
      simp [hfail, CreateShader]
    | tessEvaluation =>
      simp only [Env.stageOk] at hfail
      simp [hfail, CreateShader]
    | fragment =>
      simp only [Env.stageOk] at hfail
      simp [hfail, CreateShader]
  have hout : (mainRun env).shaderHandles
        = [(CreateShader env.vshaderId env.vshaderOk).1,
           (CreateShader env.teshaderId env.teshaderOk).1,
           (CreateShader env.fshaderId env.fshaderOk).1] ∧
      (mainRun env).linkCalled = true ∧ (mainRun env).enteredLoop = true := by
    cases hq : (runLoop env.passes ⟨none⟩).quitReceived with
    | false => simp [mainRun, h1, h2, h3, hq]
    | true => simp [mainRun, h1, h2, h3, hq]
  exact ⟨fun _ => rfl, hout.1 ▸ hmem, hout.2.1, hout.2.2⟩

/-- Witness for C7 with a failing vertex stage. -/
theorem C7_shader_failure_witness :
    0 ∈ (mainRun { quitEnv with vshaderOk := false }).shaderHandles ∧
    (mainRun { quitEnv with vshaderOk := false }).linkCalled = true ∧
    (mainRun { quitEnv with vshaderOk := false }).enteredLoop = true :=
  ⟨(C7_shader_failure { quitEnv with vshaderOk := false } ShaderStage.vertex
      rfl rfl rfl rfl).2.1,
   (C7_shader_failure { quitEnv with vshaderOk := false } ShaderStage.vertex
      rfl rfl rfl rfl).2.2.1,
   (C7_shader_failure { quitEnv with vshaderOk := false } ShaderStage.vertex
      rfl rfl rfl rfl).2.2.2⟩

set_option linter.unusedVariables false in
/-- C8: processing a window-resized event with positive width and height
sets the rendering viewport to exactly (0, 0, w, h): the event's effect on
the pass is precisely that viewport update, and after a pass consisting of
that event the viewport is (0, 0, w, h). -/
theorem C8_resize_viewport (w h : ℤ) (rest : List Event) (st : RenderState)
    (hw : 0 < w) (hh : 0 < h) :
    HandleEvents (Event.windowResized w h :: rest) st
      = HandleEvents rest ⟨some (0, 0, w, h)⟩ ∧
    (HandleEvents [Event.windowResized w h] st).1.viewport = some (0, 0, w, h) :=
  ⟨rfl, rfl⟩

/-- Witness for C8 at w = 3, h = 4. -/
theorem C8_resize_viewport_witness :
    HandleEvents (Event.windowResized 3 4 :: []) ⟨none⟩
      = HandleEvents [] ⟨some (0, 0, 3, 4)⟩ ∧
    (HandleEvents [Event.windowResized 3 4] ⟨none⟩).1.viewport = some (0, 0, 3, 4) :=
  C8_resize_viewport 3 4 [] ⟨none⟩ (by norm_num) (by norm_num)

/-- C9: CleanupSDL returns exactly the status it is given and leaves both
the window and context handles null; run on an already-null state it
performs no deletion (only the subsystem shutdown), so running it a second
time — or on the bootstrap-failure path where nothing was created — deletes
nothing: cleanup is idempotent. -/
theorem C9_cleanup_idempotent (status status' : ℤ) (s : SDLState) :
    (CleanupSDL status s).1 = status ∧
    (CleanupSDL status s).2.1 = ⟨false, false⟩ ∧
    (CleanupSDL status' ⟨false, false⟩).2.2 = [SDLAction.quitSubSystem] ∧
    CleanupSDL status' (CleanupSDL status s).2.1
      = (status', ⟨false, false⟩, [SDLAction.quitSubSystem]) := by
  obtain ⟨w, c⟩ := s
  cases w <;> cases c <;> simp [CleanupSDL]

/-- C10: the generator consumes the random stream in a fixed deterministic
order: the record of cell (r, c), at row-major index k = r*C + c, is built
from draws 4k..4k+3 — consumed as size, red, green, blue in that order
inside `cellVertex` — so the output depends only on the first 4*R*C draws,
and two runs on identical streams produce identical record sequences. -/
theorem C10_rand_order (R C : ℕ) (rand1 rand2 : ℕ → ℕ) :
    (∀ r c, r < R → c < C →
      (genQuads R C rand1)[r * C + c]?
        = some (cellVertex R C rand1 (4 * (r * C + c)) (r, c))) ∧
    ((∀ i, i < 4 * (R * C) → rand1 i = rand2 i) →
      genQuads R C rand1 = genQuads R C rand2) := by
  constructor
  · intro r c hr hc
    rw [genQuads, genCells_getElem?, cellOrder_getElem? R C r c hr hc]
    simp
  · intro hagree
    rw [genQuads, genQuads]
    apply genCells_congr
    intro j hj1 hj2
    apply hagree
    rw [cellOrder_length] at hj2
    omega

/-- Witness for C10: on a 1x2 grid the streams `id` and `id` truncated at 8
draws agree, and the second record is built from draws 4..7. -/
theorem C10_rand_order_witness :
    (genQuads 1 2 (fun i => i))[0 * 2 + 1]?
      = some (cellVertex 1 2 (fun i => i) (4 * (0 * 2 + 1)) (0, 1)) ∧
    genQuads 1 2 (fun i => i) = genQuads 1 2 (fun i => if i < 8 then i else 99) :=
  ⟨(C10_rand_order 1 2 (fun i => i) (fun i => if i < 8 then i else 99)).1
      0 1 (by norm_num) (by norm_num),
   (C10_rand_order 1 2 (fun i => i) (fun i => if i < 8 then i else 99)).2
      (fun i hi => (if_pos (show i < 8 by omega)).symm)⟩

end Tess
